import Mathlib

/-!
Shallow embedding of the rustybutter-avatar server (`src/index.ts`) and the
browser-side batch player (`public/index.html`).  JavaScript numbers are
modelled as an inductive `JsNum` with explicit `nan` and infinities so that
`parseInt`/`parseFloat`/`Math.min`/`Math.max` behave as in the source.
-/

/-- A JavaScript number: NaN, ±Infinity, or a finite value (modelled in ℚ). -/
inductive JsNum
  | nan
  | posInf
  | negInf
  | num (q : ℚ)
  deriving DecidableEq, Repr

/-- `Math.min(a, b)`: NaN-propagating minimum. -/
def jsMin : JsNum → JsNum → JsNum
  | .nan, _ => .nan
  | _, .nan => .nan
  | .negInf, _ => .negInf
  | _, .negInf => .negInf
  | .posInf, b => b
  | a, .posInf => a
  | .num a, .num b => .num (min a b)

/-- `Math.max(a, b)`: NaN-propagating maximum. -/
def jsMax : JsNum → JsNum → JsNum
  | .nan, _ => .nan
  | _, .nan => .nan
  | .posInf, _ => .posInf
  | _, .posInf => .posInf
  | .negInf, b => b
  | a, .negInf => a
  | .num a, .num b => .num (max a b)

/-- `isNaN(x)` for an already-numeric value. -/
def JsNum.isNaNB : JsNum → Bool
  | .nan => true
  | _ => false

/-- JavaScript truthiness of a number: `0` and `NaN` are falsy. -/
def JsNum.truthy : JsNum → Bool
  | .nan => false
  | .num q => !(q = 0)
  | _ => true

/-- `x || d` for numbers, as used by the client (`action.posX || 0`). -/
def jsOrNum (a d : JsNum) : JsNum := if a.truthy then a else d

/-- `Math.max(-30, Math.min(30, r))` — the rotation clamp from the source. -/
def clampRotation (r : JsNum) : JsNum := jsMax (.num (-30)) (jsMin (.num 30) r)

/-- `Math.max(0.1, Math.min(3.0, s))` — the scale clamp from the source. -/
def clampScale (s : JsNum) : JsNum := jsMax (.num (1/10)) (jsMin (.num 3) s)

/-- JS whitespace skipped by `parseInt`/`parseFloat`. -/
def isJsSpace (c : Char) : Bool := c = ' ' ∨ c = '\t' ∨ c = '\n' ∨ c = '\r'

/-- Longest prefix of decimal digits. -/
def takeDigits (cs : List Char) : List Char := cs.takeWhile (fun c => c.isDigit)

/-- Value of a digit list, most significant first. -/
def digitsToNat (cs : List Char) : ℕ := cs.foldl (fun acc c => acc * 10 + (c.toNat - 48)) 0

/-- `parseInt(s, 10)`: skip whitespace, optional sign, longest digit prefix;
`NaN` when no digits follow.  It never throws, mirroring the source where the
surrounding `try`/`catch` is dead code. -/
def parseIntJs (s : String) : JsNum :=
  let cs := s.toList.dropWhile isJsSpace
  match cs with
  | '-' :: rest =>
      let ds := takeDigits rest
      if ds.isEmpty then .nan else .num (-(digitsToNat ds : ℚ))
  | '+' :: rest =>
      let ds := takeDigits rest
      if ds.isEmpty then .nan else .num (digitsToNat ds : ℚ)
  | rest =>
      let ds := takeDigits rest
      if ds.isEmpty then .nan else .num (digitsToNat ds : ℚ)

/-- Exponent digits after `e`/`E`-and-sign; `none` when no digit follows. -/
def parseExpDigits : List Char → Option ℤ
  | '-' :: r => let ds := takeDigits r; if ds.isEmpty then none else some (-(digitsToNat ds : ℤ))
  | '+' :: r => let ds := takeDigits r; if ds.isEmpty then none else some (digitsToNat ds : ℤ)
  | r => let ds := takeDigits r; if ds.isEmpty then none else some (digitsToNat ds : ℤ)

/-- Exponent part of a float literal; absent or malformed tails contribute 0
(`parseFloat` takes the longest valid prefix). -/
def parseExpPart : List Char → ℤ
  | 'e' :: r => (parseExpDigits r).getD 0
  | 'E' :: r => (parseExpDigits r).getD 0
  | _ => 0

/-- Unsigned magnitude accepted by `parseFloat`: `Infinity`, or
`digits [. digits] [exp]`, or `. digits [exp]`; `none` when no numeric prefix. -/
def parseFloatMag (cs : List Char) : Option JsNum :=
  if cs.take 8 = "Infinity".toList then some .posInf
  else
    let intPart := takeDigits cs
    let rest1 := cs.drop intPart.length
    let fracPart :=
      match rest1 with
      | '.' :: r => takeDigits r
      | _ => []
    let rest2 :=
      match rest1 with
      | '.' :: r => r.drop (takeDigits r).length
      | _ => rest1
    if intPart.isEmpty ∧ fracPart.isEmpty then none
    else
      let mantissa : ℚ := (digitsToNat intPart : ℚ) + (digitsToNat fracPart : ℚ) / (10 ^ fracPart.length)
      some (.num (mantissa * (10 : ℚ) ^ (parseExpPart rest2)))

/-- `parseFloat(s)`: skip whitespace, optional sign, longest float prefix;
`NaN` when none. -/
def parseFloatJs (s : String) : JsNum :=
  let cs := s.toList.dropWhile isJsSpace
  match cs with
  | '-' :: r =>
      match parseFloatMag r with
      | some .posInf => .negInf
      | some (.num q) => .num (-q)
      | _ => .nan
  | '+' :: r => (parseFloatMag r).getD .nan
  | _ => (parseFloatMag cs).getD .nan

/-! ## Data model (`src/types.ts`) -/

/-- Facing direction of the avatar. -/
inductive Direction
  | right
  | left
  deriving DecidableEq, Repr

/-- An entry of the expression catalog (`expressions.json`). -/
structure Expression where
  name : String
  imageUrl : String
  description : String
  useCases : String
  deriving DecidableEq, Repr

/-- The mutable positioning state (`AvatarState` in `types.ts`). -/
structure AvatarState where
  direction : Direction
  posX : JsNum
  posY : JsNum
  rotation : JsNum
  scale : JsNum
  deriving DecidableEq, Repr

/-- One timed frame of a batch (`ExpressionAction` in `types.ts`). -/
structure ExpressionAction where
  expression : String
  duration : ℚ
  direction : Direction
  posX : JsNum
  posY : JsNum
  rotation : JsNum
  scale : JsNum
  deriving DecidableEq, Repr

/-- A batch of timed frames (`BatchExpressions` in `types.ts`).  `random` is
optional in the source and `batchId` may be missing/empty on an incoming
descriptor, hence the `Option`s; `none` models `undefined`. -/
structure BatchExpressions where
  loop : Bool
  random : Option Bool
  actions : List ExpressionAction
  batchId : Option String
  deriving DecidableEq, Repr

/-- `s || d` for an optional string where the empty string is also falsy. -/
def jsOrStr (o : Option String) (d : String) : String :=
  match o with
  | some s => if s = "" then d else s
  | none => d

/-- The server's module-level mutable state in `src/index.ts`. -/
structure ServerState where
  currentExpression : String
  avatarState : AvatarState
  batchExpressionsState : Option BatchExpressions
  deriving DecidableEq, Repr

/-- `expressionMap[n]`: the catalog built by `reduce` keeps the last entry for
a duplicated name, hence the reversed lookup. -/
def lookupExpr (exprs : List Expression) (n : String) : Option Expression :=
  exprs.reverse.find? (fun e => e.name = n)

/-- `Object.keys(expressionMap)` (used only in error responses). -/
def catalogNames (exprs : List Expression) : List String :=
  (exprs.map (fun e => e.name)).dedup

/-! ## Server-side state transitions (`src/index.ts`) -/

/-- `handleExpressionUpdate` (the MCP callback, index.ts:355-364): when the
name is known, clears any batch and replaces expression and visual state. -/
def handleExpressionUpdate (exprs : List Expression) (name : String)
    (state : AvatarState) (s : ServerState) : ServerState :=
  if (lookupExpr exprs name).isSome then
    { currentExpression := name
      avatarState := state
      batchExpressionsState := none }
  else s

/-- The actions of a descriptor whose expression name is in the catalog
(the `filter` at index.ts:371-377). -/
def validFilter (exprs : List Expression) (b : BatchExpressions) : List ExpressionAction :=
  b.actions.filter (fun a => (lookupExpr exprs a.expression).isSome)

/-- The visual state taken from one batch action (index.ts:393-399). -/
def actionState (a : ExpressionAction) : AvatarState :=
  { direction := a.direction
    posX := a.posX
    posY := a.posY
    rotation := a.rotation
    scale := a.scale }

/-- `handleBatchExpressionsUpdate` (index.ts:367-423).  `freshId` stands for
the `uuidv4()` drawn when the incoming descriptor carries no `batchId`. -/
def handleBatchExpressionsUpdate (exprs : List Expression) (freshId : String)
    (b : BatchExpressions) (s : ServerState) : ServerState :=
  let validActions := validFilter exprs b
  match validActions with
  | [] => s
  | a :: rest =>
    if rest.isEmpty ∧ !b.loop then
      { currentExpression := a.expression
        avatarState := actionState a
        batchExpressionsState := none }
    else
      { currentExpression := a.expression
        avatarState := actionState a
        batchExpressionsState := some
          { loop := b.loop
            random := some (b.random.getD false)
            actions := validActions
            batchId := some (jsOrStr b.batchId freshId) } }

/-- The JSON body served by `GET /api/current-expression` (index.ts:426-460). -/
structure CurrentResponse where
  name : String
  imageUrl : String
  description : String
  useCases : String
  direction : Direction
  posX : JsNum
  posY : JsNum
  rotation : JsNum
  scale : JsNum
  batchExpressions : Option BatchExpressions
  deriving DecidableEq, Repr

/-- `GET /api/current-expression`: 404 (`none`) when the current name no
longer resolves; otherwise the snapshot, with the batch attached when one is
active (its `random` re-defaulted to `false`). -/
def currentView (exprs : List Expression) (s : ServerState) : Option CurrentResponse :=
  match lookupExpr exprs s.currentExpression with
  | none => none
  | some e => some
    { name := e.name
      imageUrl := e.imageUrl
      description := e.description
      useCases := e.useCases
      direction := s.avatarState.direction
      posX := s.avatarState.posX
      posY := s.avatarState.posY
      rotation := s.avatarState.rotation
      scale := s.avatarState.scale
      batchExpressions := s.batchExpressionsState.map
        (fun b => { b with random := some (b.random.getD false) }) }

/-- Query string of `GET /api/set-expression`; every value arrives as text. -/
structure SetExprQuery where
  name : Option String
  direction : Option String
  pos_x : Option String
  pos_y : Option String
  rotation : Option String
  scale : Option String
  deriving DecidableEq, Repr

/-- Success body of `GET /api/set-expression`. -/
structure SetExprResponse where
  success : Bool
  name : String
  imageUrl : String
  description : String
  useCases : String
  direction : Direction
  posX : JsNum
  posY : JsNum
  rotation : JsNum
  scale : JsNum
  deriving DecidableEq, Repr

/-- The sequence of in-place `avatarState` mutations performed by
`GET /api/set-expression` (index.ts:479-536): direction only when exactly
`left`/`right`, positions via `parseInt` (no NaN guard!), rotation clamped
after `parseInt` (no NaN guard), scale via `parseFloat` behind an `isNaN`
guard. -/
def applyQuery (q : SetExprQuery) (av0 : AvatarState) : AvatarState :=
  let av1 :=
    match q.direction with
    | some d => if d = "left" then { av0 with direction := .left }
                else if d = "right" then { av0 with direction := .right }
                else av0
    | none => av0
  let av2 :=
    match q.pos_x with
    | some t => { av1 with posX := parseIntJs t }
    | none => av1
  let av3 :=
    match q.pos_y with
    | some t => { av2 with posY := parseIntJs t }
    | none => av2
  let av4 :=
    match q.rotation with
    | some t => { av3 with rotation := clampRotation (parseIntJs t) }
    | none => av3
  match q.scale with
  | some t =>
      let v := parseFloatJs t
      if v.isNaNB then av4 else { av4 with scale := clampScale v }
  | none => av4

/-- `GET /api/set-expression` (index.ts:463-551).  `.error` is the 400
response carrying the catalog names.  Note: this handler never touches
`batchExpressionsState`. -/
def httpSetExpression (exprs : List Expression) (q : SetExprQuery)
    (s : ServerState) : Except (List String) (SetExprResponse × ServerState) :=
  match q.name with
  | none => .error (catalogNames exprs)
  | some n =>
    match lookupExpr exprs n with
    | none => .error (catalogNames exprs)
    | some e =>
      let av5 := applyQuery q s.avatarState
      let s' : ServerState :=
        { currentExpression := n
          avatarState := av5
          batchExpressionsState := s.batchExpressionsState }
      .ok
        ({ success := true
           name := e.name
           imageUrl := e.imageUrl
           description := e.description
           useCases := e.useCases
           direction := av5.direction
           posX := av5.posX
           posY := av5.posY
           rotation := av5.rotation
           scale := av5.scale }, s')

/-- The legacy `mcpTools.setAvatarExpression.function` (index.ts:626-675) has
typed numeric parameters, the same merge rules, and it *does* clear the batch.
These are its field updates (index.ts:636-660). -/
def applyLegacy (direction : Option String) (posX posY rotation scale : Option JsNum)
    (av0 : AvatarState) : AvatarState :=
  let av1 :=
    match direction with
    | some d => if d = "left" then { av0 with direction := .left }
                else if d = "right" then { av0 with direction := .right }
                else av0
    | none => av0
  let av2 := match posX with | some v => { av1 with posX := v } | none => av1
  let av3 := match posY with | some v => { av2 with posY := v } | none => av2
  let av4 :=
    match rotation with
    | some v => { av3 with rotation := clampRotation v }
    | none => av3
  match scale with
  | some v => { av4 with scale := clampScale v }
  | none => av4

/-- The legacy tool itself: throws (`.error`) on an unknown name before any
mutation, otherwise merges the supplied fields and clears the batch. -/
def legacySetAvatarExpression (exprs : List Expression) (name : String)
    (direction : Option String) (posX posY rotation scale : Option JsNum)
    (s : ServerState) : Except String ServerState :=
  match lookupExpr exprs name with
  | none => .error "Invalid expression"
  | some _ =>
    .ok { currentExpression := name
          avatarState := applyLegacy direction posX posY rotation scale s.avatarState
          batchExpressionsState := none }

/-! ## The server as a transition system over external operations -/

/-- The externally triggered state mutations of the server. -/
inductive ServerOp
  | readCurrent
  | httpSetExpr (q : SetExprQuery)
  | mcpSetExpr (name : String) (state : AvatarState)
  | legacySet (name : String) (direction : Option String)
      (posX posY rotation scale : Option JsNum)
  | setBatch (b : BatchExpressions) (freshId : String)

/-- Effect of one operation on the server state.  `readCurrent` is a pure
read; failed writes (400 / thrown errors) leave the state untouched. -/
def stepServer (exprs : List Expression) : ServerOp → ServerState → ServerState
  | .readCurrent, s => s
  | .httpSetExpr q, s =>
      match httpSetExpression exprs q s with
      | .ok (_, s') => s'
      | .error _ => s
  | .mcpSetExpr name st, s => handleExpressionUpdate exprs name st s
  | .legacySet name d px py r sc, s =>
      match legacySetAvatarExpression exprs name d px py r sc s with
      | .ok s' => s'
      | .error _ => s
  | .setBatch b fid, s => handleBatchExpressionsUpdate exprs fid b s

/-- The `batchId` visible to a poller in the `currentView` response, when the
view resolves and carries a batch. -/
def viewBatchId (exprs : List Expression) (s : ServerState) : Option String :=
  match currentView exprs s with
  | some r => r.batchExpressions.bind (fun b => b.batchId)
  | none => none

/-! ## Client-side batch player (`public/index.html`) -/

/-- The payload handed to `updateSingleExpression` (a rendering). -/
structure ExpressionData where
  name : String
  imageUrl : String
  description : String
  direction : Direction
  posX : JsNum
  posY : JsNum
  rotation : JsNum
  scale : JsNum
  deriving DecidableEq, Repr

/-- The mutable script-level variables of the page.  `batchTimeout` models
whether the `batchTimeout` variable is non-null; `rand` is the stream of
comparator outcomes drawn from `Math.random()` by the shuffle. -/
structure ClientState where
  currentBatch : Option BatchExpressions
  currentBatchId : Option String
  currentActionIndex : ℕ
  batchTimeout : Bool
  rand : List Bool
  deriving DecidableEq, Repr

/-- Observable actions the page performs: painting a frame, `setTimeout`,
`clearTimeout`. -/
inductive ClientEffect
  | render (d : ExpressionData)
  | armTimer (duration : ℚ)
  | cancelTimer
  deriving DecidableEq, Repr

/-- The single-expression payload of a poll response. -/
def singleData (r : CurrentResponse) : ExpressionData :=
  { name := r.name
    imageUrl := r.imageUrl
    description := r.description
    direction := r.direction
    posX := r.posX
    posY := r.posY
    rotation := r.rotation
    scale := r.scale }

/-- The object built by `processBatchAction` for one action
(index.html:192-201); `||`-defaults as in the source. -/
def batchActionData (a : ExpressionAction) : ExpressionData :=
  { name := a.expression
    imageUrl := "/images/" ++ a.expression ++ ".png"
    description := "Batch expression"
    direction := a.direction
    posX := jsOrNum a.posX (.num 0)
    posY := jsOrNum a.posY (.num 0)
    rotation := jsOrNum a.rotation (.num 0)
    scale := jsOrNum a.scale (.num 1) }

/-- `stopBatchExpression` (index.html:172-180). -/
def stopBatchExpression (c : ClientState) : ClientState × List ClientEffect :=
  ({ c with currentBatch := none
            currentBatchId := none
            currentActionIndex := 0
            batchTimeout := false },
   if c.batchTimeout then [ClientEffect.cancelTimer] else [])

/-- `processBatchAction` without its scheduled callback
(index.html:183-207): render the current action and arm the frame timer.
The index is in range whenever the page reaches this point. -/
def processBatchAction (c : ClientState) : ClientState × List ClientEffect :=
  match c.currentBatch with
  | none => (c, [])
  | some b =>
    if b.actions.isEmpty then (c, [])
    else
      match b.actions.get? c.currentActionIndex with
      | none => (c, [])
      | some a =>
          ({ c with batchTimeout := true },
           [ClientEffect.render (batchActionData a), ClientEffect.armTimer a.duration])

/-- `startBatchExpression` (index.html:158-169). -/
def startBatchExpression (b : BatchExpressions) (c : ClientState) :
    ClientState × List ClientEffect :=
  let r1 := stopBatchExpression c
  let r2 := processBatchAction
    { r1.1 with currentBatch := some b
                currentBatchId := b.batchId
                currentActionIndex := 0 }
  (r2.1, r1.2 ++ r2.2)

/-- One tick of `updateAvatar` (index.html:94-122) on a successful fetch. -/
def updateAvatar (r : CurrentResponse) (c : ClientState) :
    ClientState × List ClientEffect :=
  match r.batchExpressions with
  | some b =>
      if c.currentBatchId ≠ b.batchId then startBatchExpression b c
      else (c, [])
  | none =>
      let r1 := stopBatchExpression c
      (r1.1, r1.2 ++ [ClientEffect.render (singleData r)])

/-- Insert an element into a list, deciding at each position from the stream
of comparator outcomes (one `Math.random() - 0.5` sample per comparison);
returns the remaining stream. -/
def insertRand {α : Type} : List Bool → α → List α → List α × List Bool
  | bs, a, [] => ([a], bs)
  | [], a, l => (a :: l, [])
  | b :: bs, a, x :: xs =>
      if b then (a :: x :: xs, bs)
      else
        let r := insertRand bs a xs
        (x :: r.1, r.2)

/-- Model of `[...actions].sort(() => Math.random() - 0.5)`: a
comparison-driven sort whose comparisons are random coin flips.  Whatever the
flips, an ECMAScript `sort` returns a rearrangement of its input, which is
the only property the player relies on. -/
def sortRand {α : Type} : List Bool → List α → List α × List Bool
  | bs, [] => ([], bs)
  | bs, x :: xs =>
      let r := sortRand bs xs
      insertRand r.2 x r.1

/-- The `setTimeout` callback of `processBatchAction` (index.html:207-234):
advance the index; on wrapping, either reshuffle-and-restart (loop) or drop
the batch tracking (non-loop, leaving the incremented index and the stale
timeout handle behind, as the source does). -/
def timerFire (c : ClientState) : ClientState × List ClientEffect :=
  match c.currentBatch with
  | none => (c, [])
  | some b =>
    let i := c.currentActionIndex + 1
    if i ≥ b.actions.length then
      if b.loop then
        let sh := if b.random.getD false then sortRand c.rand b.actions
                  else (b.actions, c.rand)
        processBatchAction
          { c with currentBatch := some { b with actions := sh.1 }
                   currentActionIndex := 0
                   rand := sh.2 }
      else
        ({ c with currentBatch := none
                  currentBatchId := none
                  currentActionIndex := i }, [])
    else
      processBatchAction { c with currentActionIndex := i }

/-- Run `n` consecutive timer expiries, concatenating their effects. -/
def runTimerFires : ℕ → ClientState → ClientState × List ClientEffect
  | 0, c => (c, [])
  | n + 1, c =>
      let r := timerFire c
      let r2 := runTimerFires n r.1
      (r2.1, r.2 ++ r2.2)

/-- Names painted by a list of effects, in order. -/
def renderedNames (effs : List ClientEffect) : List String :=
  effs.filterMap (fun e => match e with
    | ClientEffect.render d => some d.name
    | _ => none)

/-! ## Helper lemmas -/

/-- Field-by-field characterization of the HTTP update chain: each query
parameter affects exactly its own field. -/
theorem applyQuery_fields (q : SetExprQuery) (av : AvatarState) :
    applyQuery q av =
      { direction :=
          match q.direction with
          | some d => if d = "left" then Direction.left
                      else if d = "right" then Direction.right
                      else av.direction
          | none => av.direction
        posX := match q.pos_x with | some t => parseIntJs t | none => av.posX
        posY := match q.pos_y with | some t => parseIntJs t | none => av.posY
        rotation :=
          match q.rotation with
          | some t => clampRotation (parseIntJs t)
          | none => av.rotation
        scale :=
          match q.scale with
          | some t => if (parseFloatJs t).isNaNB then av.scale
                      else clampScale (parseFloatJs t)
          | none => av.scale } := by
  rcases q with ⟨n, d, x, y, r, sc⟩
  cases d <;> cases x <;> cases y <;> cases r <;> cases sc <;>
    simp only [applyQuery] <;> split_ifs <;> rfl

/-- Same characterization for the legacy tool's update chain. -/
theorem applyLegacy_fields (direction : Option String)
    (posX posY rotation scale : Option JsNum) (av : AvatarState) :
    applyLegacy direction posX posY rotation scale av =
      { direction :=
          match direction with
          | some d => if d = "left" then Direction.left
                      else if d = "right" then Direction.right
                      else av.direction
          | none => av.direction
        posX := match posX with | some v => v | none => av.posX
        posY := match posY with | some v => v | none => av.posY
        rotation :=
          match rotation with
          | some v => clampRotation v
          | none => av.rotation
        scale :=
          match scale with
          | some v => clampScale v
          | none => av.scale } := by
  cases direction <;> cases posX <;> cases posY <;> cases rotation <;> cases scale <;>
    simp only [applyLegacy] <;> split_ifs <;> rfl

/-- Shape of a successful `GET /api/set-expression`: the name resolved, the
visual state went through `applyQuery`, and the batch slot was not touched. -/
theorem httpSetExpression_ok {exprs : List Expression} {q : SetExprQuery}
    {s : ServerState} {resp : SetExprResponse} {s' : ServerState}
    (h : httpSetExpression exprs q s = .ok (resp, s')) :
    resp.success = true ∧
    s'.avatarState = applyQuery q s.avatarState ∧
    s'.batchExpressionsState = s.batchExpressionsState ∧
    ∃ n, q.name = some n ∧ (lookupExpr exprs n).isSome ∧ s'.currentExpression = n := by
  rcases hn : q.name with _ | n
  · rw [httpSetExpression, hn] at h
    exact absurd h (by simp)
  · rcases hl : lookupExpr exprs n with _ | e
    · simp only [httpSetExpression, hn, hl] at h
      exact absurd h (by simp)
    · simp only [httpSetExpression, hn, hl, Except.ok.injEq, Prod.mk.injEq] at h
      obtain ⟨hr, hs⟩ := h
      refine ⟨by rw [← hr], by rw [← hs], by rw [← hs], n, rfl, by rw [hl]; rfl, by rw [← hs]⟩

/-- Shape of a successful legacy `setAvatarExpression` call: merged visual
state, batch cleared. -/
theorem legacySetAvatarExpression_ok {exprs : List Expression} {name : String}
    {d : Option String} {px py r sc : Option JsNum} {s s' : ServerState}
    (h : legacySetAvatarExpression exprs name d px py r sc s = .ok s') :
    s'.currentExpression = name ∧
    s'.avatarState = applyLegacy d px py r sc s.avatarState ∧
    s'.batchExpressionsState = none := by
  rcases hl : lookupExpr exprs name with _ | e
  · simp only [legacySetAvatarExpression, hl] at h
    exact absurd h (by simp)
  · simp only [legacySetAvatarExpression, hl, Except.ok.injEq] at h
    exact ⟨by rw [← h], by rw [← h], by rw [← h]⟩

/-- A visible batch id comes from the stored batch descriptor. -/
theorem viewBatchId_eq_stored (exprs : List Expression) (s : ServerState)
    {i : String} (h : viewBatchId exprs s = some i) :
    s.batchExpressionsState.bind (fun b => b.batchId) = some i := by
  rcases hl : lookupExpr exprs s.currentExpression with _ | e
  · rw [viewBatchId, currentView, hl] at h
    exact absurd h (by simp)
  · rw [viewBatchId, currentView, hl] at h
    rcases hb : s.batchExpressionsState with _ | b
    · rw [hb] at h
      exact absurd h (by simp)
    · rw [hb] at h
      simpa using h

/-- With no stored batch there is no visible batch id. -/
theorem viewBatchId_of_no_batch (exprs : List Expression) (s : ServerState)
    (h : s.batchExpressionsState = none) : viewBatchId exprs s = none := by
  rcases hl : lookupExpr exprs s.currentExpression with _ | e <;>
    simp [viewBatchId, currentView, hl, h]

/-- When the current expression resolves, the visible batch id is exactly the
stored one. -/
theorem viewBatchId_of_stored (exprs : List Expression) (s : ServerState)
    {e : Expression} (hl : lookupExpr exprs s.currentExpression = some e) :
    viewBatchId exprs s = s.batchExpressionsState.bind (fun b => b.batchId) := by
  rcases hb : s.batchExpressionsState with _ | b <;>
    simp [viewBatchId, currentView, hl, hb]

/-- `insertRand` only rearranges: the result is a permutation of the new
element consed on the old list. -/
theorem insertRand_perm {α : Type} :
    ∀ (bs : List Bool) (a : α) (l : List α), (insertRand bs a l).1.Perm (a :: l) := by
  intro bs a l
  induction l generalizing bs with
  | nil => cases bs <;> simp [insertRand]
  | cons x xs ih =>
    cases bs with
    | nil => simp [insertRand]
    | cons b bs' =>
      by_cases hb : b
      · simp [insertRand, hb]
      · simp only [insertRand, hb, if_false]
        exact ((ih bs').cons x).trans (List.Perm.swap a x xs)

/-- The random sort only rearranges its input, whatever the coin flips. -/
theorem sortRand_perm {α : Type} :
    ∀ (bs : List Bool) (l : List α), (sortRand bs l).1.Perm l := by
  intro bs l
  induction l generalizing bs with
  | nil => simp [sortRand]
  | cons x xs ih =>
    simp only [sortRand]
    exact (insertRand_perm _ x _).trans (((ih bs).cons x).symm.symm)

/-! ## Concrete fixtures for witnesses and counterexamples -/

/-- A two-entry catalog in the shape of `expressions.json`. -/
def sampleExprs : List Expression :=
  [ { name := "joyful"
      imageUrl := "/images/joyful.png"
      description := "Happy and celebratory expression"
      useCases := "When tests pass" },
    { name := "surprised"
      imageUrl := "/images/surprised.png"
      description := "Surprised expression"
      useCases := "Unexpected events" } ]

/-- The initial avatar state (index.ts:343-349). -/
def initialAvatarState : AvatarState :=
  { direction := .right, posX := .num 0, posY := .num 0
    rotation := .num 0, scale := .num 1 }

/-- The initial server state: expression `joyful`, no batch. -/
def initialServerState : ServerState :=
  { currentExpression := "joyful"
    avatarState := initialAvatarState
    batchExpressionsState := none }

/-- A first sample frame. -/
def sampleActionJ : ExpressionAction :=
  { expression := "joyful", duration := 100, direction := .right
    posX := .num 0, posY := .num 0, rotation := .num 0, scale := .num 1 }

/-- A second sample frame. -/
def sampleActionS : ExpressionAction :=
  { expression := "surprised", duration := 200, direction := .left
    posX := .num 5, posY := .num (-3), rotation := .num 10, scale := .num 2 }

/-- A frame whose expression is not in the catalog. -/
def sampleActionBad : ExpressionAction :=
  { expression := "zzz", duration := 50, direction := .right
    posX := .num 0, posY := .num 0, rotation := .num 0, scale := .num 1 }

/-- A two-frame looping batch. -/
def sampleBatchLoop : BatchExpressions :=
  { loop := true, random := some false
    actions := [sampleActionJ, sampleActionS], batchId := some "batch-1" }

/-- A two-frame non-looping batch. -/
def sampleBatchNoLoop : BatchExpressions :=
  { loop := false, random := some false
    actions := [sampleActionJ, sampleActionS], batchId := some "batch-1" }

/-- The browser script's variables at page load (index.html:87-91). -/
def clientInit : ClientState :=
  { currentBatch := none, currentBatchId := none
    currentActionIndex := 0, batchTimeout := false, rand := [] }

/-- Server state with the looping batch installed. -/
def serverWithBatch : ServerState :=
  handleBatchExpressionsUpdate sampleExprs "fresh-1" sampleBatchLoop initialServerState

/-- A valid plain set-expression query naming `surprised` with no visual
parameters. -/
def qSurprised : SetExprQuery :=
  { name := some "surprised", direction := none, pos_x := none
    pos_y := none, rotation := none, scale := none }

/-- State after `GET /api/set-expression?name=surprised` on `serverWithBatch`. -/
def afterHttpWithBatch : ServerState :=
  stepServer sampleExprs (ServerOp.httpSetExpr qSurprised) serverWithBatch

/-! ## The claims -/

/-- C1: the claim says every set-expression entry point clears an active
batch.  The MCP callback does (`handleExpressionUpdate`), but the HTTP
`GET /api/set-expression` endpoint never touches `batchExpressionsState`:
after a successful HTTP set on a state with an active batch, the batch is
still stored and the next `currentView` still carries its `batchId`. -/
theorem c1_http_set_expression_leaves_batch :
    serverWithBatch.batchExpressionsState = some sampleBatchLoop ∧
    (httpSetExpression sampleExprs qSurprised serverWithBatch).isOk = true ∧
    afterHttpWithBatch.currentExpression = "surprised" ∧
    afterHttpWithBatch.batchExpressionsState = some sampleBatchLoop ∧
    viewBatchId sampleExprs afterHttpWithBatch = some "batch-1" ∧
    (handleExpressionUpdate sampleExprs "surprised" initialAvatarState
        serverWithBatch).batchExpressionsState = none := by
  refine ⟨?_, ?_, ?_, ?_, ?_, ?_⟩ <;> rfl

/-- C3: the claim says rotation is always stored as a number in [-30, 30]
for any input.  A non-numeric `rotation` query value refutes it: `parseInt`
yields NaN, the clamp propagates NaN, the handler stores it and still
reports success. -/
theorem c3_nonnumeric_rotation_stores_nan :
    (httpSetExpression sampleExprs
        { name := some "joyful", direction := none, pos_x := none
          pos_y := none, rotation := some "abc", scale := none }
        initialServerState =
      .ok ({ success := true
             name := "joyful"
             imageUrl := "/images/joyful.png"
             description := "Happy and celebratory expression"
             useCases := "When tests pass"
             direction := .right, posX := .num 0, posY := .num 0
             rotation := .nan, scale := .num 1 },
           { currentExpression := "joyful"
             avatarState := { initialAvatarState with rotation := .nan }
             batchExpressionsState := none })) ∧
    ∀ q : ℚ, (JsNum.nan : JsNum) ≠ JsNum.num q := by
  exact ⟨rfl, fun q h => by cases h⟩

/-- C10: on `GET /api/set-expression` with a valid name, any supplied
`pos_x`/`pos_y`/`rotation` value that does not parse as a number still lets
the request report success and stores NaN in the corresponding field
(`parseInt` returns NaN instead of throwing, so the `catch` is dead), while
`scale` alone is guarded by `isNaN` and left unchanged. -/
theorem c10_nan_reaches_state_except_scale
    (exprs : List Expression) (q : SetExprQuery) (s : ServerState)
    (resp : SetExprResponse) (s' : ServerState)
    (h : httpSetExpression exprs q s = .ok (resp, s'))
    (hx : ∀ t, q.pos_x = some t → parseIntJs t = .nan)
    (hy : ∀ t, q.pos_y = some t → parseIntJs t = .nan)
    (hr : ∀ t, q.rotation = some t → parseIntJs t = .nan)
    (hsc : ∀ t, q.scale = some t → parseFloatJs t = .nan) :
    resp.success = true ∧
    (q.pos_x ≠ none → s'.avatarState.posX = .nan) ∧
    (q.pos_y ≠ none → s'.avatarState.posY = .nan) ∧
    (q.rotation ≠ none → s'.avatarState.rotation = .nan) ∧
    s'.avatarState.scale = s.avatarState.scale := by
  obtain ⟨hsuc, hav, _, _⟩ := httpSetExpression_ok h
  rw [applyQuery_fields] at hav
  refine ⟨hsuc, ?_, ?_, ?_, ?_⟩
  · rcases hqx : q.pos_x with _ | t
    · intro hne; exact absurd rfl hne
    · intro _
      rw [hav]
      simp only [hqx]
      exact hx t hqx
  · rcases hqy : q.pos_y with _ | t
    · intro hne; exact absurd rfl hne
    · intro _
      rw [hav]
      simp only [hqy]
      exact hy t hqy
  · rcases hqr : q.rotation with _ | t
    · intro hne; exact absurd rfl hne
    · intro _
      rw [hav]
      simp only [hqr]
      rw [hr t hqr]
      rfl
  · rcases hqs : q.scale with _ | t
    · rw [hav]; simp only [hqs]
    · rw [hav]
      simp only [hqs]
      rw [hsc t hqs]
      rfl

/-- Witness for C10 at the concrete request
`GET /api/set-expression?name=joyful&pos_x=abc&pos_y=abc&rotation=abc&scale=abc`. -/
theorem c10_nan_reaches_state_except_scale_witness :
    ({ success := true
       name := "joyful"
       imageUrl := "/images/joyful.png"
       description := "Happy and celebratory expression"
       useCases := "When tests pass"
       direction := .right, posX := .nan, posY := .nan
       rotation := .nan, scale := .num 1 } : SetExprResponse).success = true ∧
    ((some "abc" : Option String) ≠ none →
      ({ currentExpression := "joyful"
         avatarState := { direction := .right, posX := .nan, posY := .nan
                          rotation := .nan, scale := .num 1 }
         batchExpressionsState := none } : ServerState).avatarState.posX = .nan) ∧
    ((some "abc" : Option String) ≠ none →
      ({ currentExpression := "joyful"
         avatarState := { direction := .right, posX := .nan, posY := .nan
                          rotation := .nan, scale := .num 1 }
         batchExpressionsState := none } : ServerState).avatarState.posY = .nan) ∧
    ((some "abc" : Option String) ≠ none →
      ({ currentExpression := "joyful"
         avatarState := { direction := .right, posX := .nan, posY := .nan
                          rotation := .nan, scale := .num 1 }
         batchExpressionsState := none } : ServerState).avatarState.rotation = .nan) ∧
    ({ currentExpression := "joyful"
       avatarState := { direction := .right, posX := .nan, posY := .nan
                        rotation := .nan, scale := .num 1 }
       batchExpressionsState := none } : ServerState).avatarState.scale =
      initialServerState.avatarState.scale :=
  c10_nan_reaches_state_except_scale sampleExprs
    { name := some "joyful", direction := none, pos_x := some "abc"
      pos_y := some "abc", rotation := some "abc", scale := some "abc" }
    initialServerState _ _ rfl
    (fun t ht => by injection ht with h2; rw [← h2]; rfl)
    (fun t ht => by injection ht with h2; rw [← h2]; rfl)
    (fun t ht => by injection ht with h2; rw [← h2]; rfl)
    (fun t ht => by injection ht with h2; rw [← h2]; rfl)

/-- C7: on every successful set-expression call (HTTP query path and legacy
typed MCP path), fields not supplied keep their previous values and supplied
fields are merged over the current visual state (with the source's clamps
and parses). -/
theorem c7_partial_update_merges :
    (∀ (exprs : List Expression) (q : SetExprQuery) (s : ServerState)
       (resp : SetExprResponse) (s' : ServerState),
      httpSetExpression exprs q s = .ok (resp, s') →
      (q.direction = none → s'.avatarState.direction = s.avatarState.direction) ∧
      (q.pos_x = none → s'.avatarState.posX = s.avatarState.posX) ∧
      (q.pos_y = none → s'.avatarState.posY = s.avatarState.posY) ∧
      (q.rotation = none → s'.avatarState.rotation = s.avatarState.rotation) ∧
      (q.scale = none → s'.avatarState.scale = s.avatarState.scale) ∧
      (q.direction = some "left" → s'.avatarState.direction = .left) ∧
      (q.direction = some "right" → s'.avatarState.direction = .right) ∧
      (∀ t, q.pos_x = some t → s'.avatarState.posX = parseIntJs t) ∧
      (∀ t, q.pos_y = some t → s'.avatarState.posY = parseIntJs t) ∧
      (∀ t, q.rotation = some t →
        s'.avatarState.rotation = clampRotation (parseIntJs t)) ∧
      (∀ t, q.scale = some t →
        s'.avatarState.scale =
          if (parseFloatJs t).isNaNB then s.avatarState.scale
          else clampScale (parseFloatJs t))) ∧
    (∀ (exprs : List Expression) (name : String) (d : Option String)
       (px py r sc : Option JsNum) (s s' : ServerState),
      legacySetAvatarExpression exprs name d px py r sc s = .ok s' →
      (d = none → s'.avatarState.direction = s.avatarState.direction) ∧
      (px = none → s'.avatarState.posX = s.avatarState.posX) ∧
      (py = none → s'.avatarState.posY = s.avatarState.posY) ∧
      (r = none → s'.avatarState.rotation = s.avatarState.rotation) ∧
      (sc = none → s'.avatarState.scale = s.avatarState.scale) ∧
      (∀ v, px = some v → s'.avatarState.posX = v) ∧
      (∀ v, py = some v → s'.avatarState.posY = v) ∧
      (∀ v, r = some v → s'.avatarState.rotation = clampRotation v) ∧
      (∀ v, sc = some v → s'.avatarState.scale = clampScale v)) := by
  constructor
  · intro exprs q s resp s' h
    obtain ⟨_, hav, _, _⟩ := httpSetExpression_ok h
    rw [applyQuery_fields] at hav
    refine ⟨?_, ?_, ?_, ?_, ?_, ?_, ?_, ?_, ?_, ?_, ?_⟩ <;>
      first
        | (intro ht; rw [hav]; simp only [ht]; try rfl)
        | (intro t ht; rw [hav]; simp only [ht])
  · intro exprs name d px py r sc s s' h
    obtain ⟨_, hav, _⟩ := legacySetAvatarExpression_ok h
    rw [applyLegacy_fields] at hav
    refine ⟨?_, ?_, ?_, ?_, ?_, ?_, ?_, ?_, ?_⟩ <;>
      first
        | (intro ht; rw [hav]; simp only [ht])
        | (intro v ht; rw [hav]; simp only [ht])

/-- Witness for C7: `GET /api/set-expression?name=surprised&pos_x=7` keeps
direction, pos_y, rotation and scale and merges the parsed `pos_x`. -/
theorem c7_partial_update_merges_witness :
    ((none : Option String) = none →
      ({ currentExpression := "surprised"
         avatarState := { initialAvatarState with posX := .num 7 }
         batchExpressionsState := none } : ServerState).avatarState.direction =
        initialServerState.avatarState.direction) ∧
    ({ currentExpression := "surprised"
       avatarState := { initialAvatarState with posX := .num 7 }
       batchExpressionsState := none } : ServerState).avatarState.posX =
      parseIntJs "7" := by
  have h := (c7_partial_update_merges.1 sampleExprs
    { name := some "surprised", direction := none, pos_x := some "7"
      pos_y := none, rotation := none, scale := none }
    initialServerState
    { success := true
      name := "surprised"
      imageUrl := "/images/surprised.png"
      description := "Surprised expression"
      useCases := "Unexpected events"
      direction := .right, posX := .num 7, posY := .num 0
      rotation := .num 0, scale := .num 1 }
    { currentExpression := "surprised"
      avatarState := { initialAvatarState with posX := .num 7 }
      batchExpressionsState := none }
    rfl)
  exact ⟨h.1, h.2.2.2.2.2.2.2.1 "7" rfl⟩

/-- With no stored batch, a resolving `currentView` carries no batch. -/
theorem currentView_no_batch {exprs : List Expression} {s : ServerState}
    (h : s.batchExpressionsState = none) :
    ∀ r, currentView exprs s = some r → r.batchExpressions = none := by
  intro r hr
  rcases hl : lookupExpr exprs s.currentExpression with _ | e
  · rw [currentView, hl] at hr
    cases hr
  · rw [currentView, hl, Option.some.injEq] at hr
    rw [← hr]
    simp [h]

/-- C4: the server-side batch update path rejects the whole call and leaves
all state untouched when no action is valid, and otherwise proceeds with
exactly the valid subset (collapsing when a single valid action remains and
the batch does not loop). -/
theorem c4_batch_update_filters_or_rejects
    (exprs : List Expression) (fid : String) (b : BatchExpressions)
    (s : ServerState) :
    (validFilter exprs b = [] → handleBatchExpressionsUpdate exprs fid b s = s) ∧
    ∀ a rest, validFilter exprs b = a :: rest →
      ((rest = [] ∧ b.loop = false) →
        handleBatchExpressionsUpdate exprs fid b s =
          { currentExpression := a.expression
            avatarState := actionState a
            batchExpressionsState := none }) ∧
      (¬(rest = [] ∧ b.loop = false) →
        handleBatchExpressionsUpdate exprs fid b s =
          { currentExpression := a.expression
            avatarState := actionState a
            batchExpressionsState := some
              { loop := b.loop
                random := some (b.random.getD false)
                actions := a :: rest
                batchId := some (jsOrStr b.batchId fid) } }) := by
  constructor
  · intro h
    simp [handleBatchExpressionsUpdate, h]
  · intro a rest hv
    constructor
    · rintro ⟨hrest, hloop⟩
      subst hrest
      simp [handleBatchExpressionsUpdate, hv, hloop]
    · intro hn
      have himp : rest = [] → b.loop = true := by
        intro h
        cases hb : b.loop
        · exact absurd ⟨h, hb⟩ hn
        · rfl
      simp [handleBatchExpressionsUpdate, hv]
      exact himp

/-- A three-action batch whose every action names an unknown expression. -/
def badBatch3 : BatchExpressions :=
  { loop := true, random := none
    actions := [sampleActionBad, sampleActionBad, sampleActionBad]
    batchId := some "batch-bad" }

/-- A looping batch with one invalid action among three. -/
def mixedBatch : BatchExpressions :=
  { loop := true, random := some false
    actions := [sampleActionJ, sampleActionBad, sampleActionS]
    batchId := some "batch-2" }

/-- Witness for C4: all-invalid rejects without touching prior state
(including an active batch); a partially valid call keeps exactly the valid
two actions. -/
theorem c4_batch_update_filters_or_rejects_witness :
    handleBatchExpressionsUpdate sampleExprs "fresh-2" badBatch3 serverWithBatch =
      serverWithBatch ∧
    handleBatchExpressionsUpdate sampleExprs "fresh-2" mixedBatch initialServerState =
      { currentExpression := "joyful"
        avatarState := actionState sampleActionJ
        batchExpressionsState := some
          { loop := true, random := some false
            actions := [sampleActionJ, sampleActionS]
            batchId := some "batch-2" } } := by
  constructor
  · exact (c4_batch_update_filters_or_rejects sampleExprs "fresh-2" badBatch3
      serverWithBatch).1 rfl
  · exact (((c4_batch_update_filters_or_rejects sampleExprs "fresh-2" mixedBatch
      initialServerState).2 sampleActionJ [sampleActionS] rfl).2)
      (by rintro ⟨hc, -⟩; cases hc)

/-- C5: a batch whose valid actions number exactly one, with `loop = false`,
collapses to an immediate single-expression set: nothing is stored in the
batch slot and a subsequent `currentView` carries no batch. -/
theorem c5_single_action_batch_collapses
    (exprs : List Expression) (fid : String) (b : BatchExpressions)
    (s : ServerState) (a : ExpressionAction)
    (hv : validFilter exprs b = [a]) (hl : b.loop = false) :
    handleBatchExpressionsUpdate exprs fid b s =
      { currentExpression := a.expression
        avatarState := actionState a
        batchExpressionsState := none } ∧
    ∀ r, currentView exprs (handleBatchExpressionsUpdate exprs fid b s) = some r →
      r.batchExpressions = none := by
  have h1 : handleBatchExpressionsUpdate exprs fid b s =
      { currentExpression := a.expression
        avatarState := actionState a
        batchExpressionsState := none } := by
    simp [handleBatchExpressionsUpdate, hv, hl]
  refine ⟨h1, ?_⟩
  rw [h1]
  exact currentView_no_batch rfl

/-- A batch whose only valid action is `sampleActionS`, not looping. -/
def collapseBatch : BatchExpressions :=
  { loop := false, random := some true
    actions := [sampleActionS, sampleActionBad], batchId := some "batch-3" }

/-- The view after the collapsed batch. -/
def c5view : CurrentResponse :=
  { name := "surprised"
    imageUrl := "/images/surprised.png"
    description := "Surprised expression"
    useCases := "Unexpected events"
    direction := .left, posX := .num 5, posY := .num (-3)
    rotation := .num 10, scale := .num 2
    batchExpressions := none }

/-- Witness for C5 at the concrete one-valid-action non-looping batch. -/
theorem c5_single_action_batch_collapses_witness :
    handleBatchExpressionsUpdate sampleExprs "fresh-3" collapseBatch initialServerState =
      { currentExpression := "surprised"
        avatarState := actionState sampleActionS
        batchExpressionsState := none } ∧
    c5view.batchExpressions = none := by
  have h := c5_single_action_batch_collapses sampleExprs "fresh-3" collapseBatch
    initialServerState sampleActionS rfl rfl
  exact ⟨h.1, h.2 c5view (by rw [h.1]; rfl)⟩

/-- C6: the current-expression read is pure, so repeated reads with no
intervening write always surface the same `batchId`; a visible `batchId` can
only change through the batch-install operation; and installing a genuinely
new (fresh-id, non-collapsing) batch does change it. -/
theorem c6_batch_id_stable_under_reads (exprs : List Expression) :
    (∀ s : ServerState, stepServer exprs ServerOp.readCurrent s = s) ∧
    (∀ (op : ServerOp) (s : ServerState) (i j : String),
      viewBatchId exprs s = some i →
      viewBatchId exprs (stepServer exprs op s) = some j →
      i ≠ j → ∃ b fid, op = ServerOp.setBatch b fid) ∧
    (∀ (b : BatchExpressions) (fid : String) (s : ServerState)
       (a : ExpressionAction) (rest : List ExpressionAction),
      validFilter exprs b = a :: rest → (rest ≠ [] ∨ b.loop = true) →
      viewBatchId exprs s ≠ some (jsOrStr b.batchId fid) →
      viewBatchId exprs (stepServer exprs (ServerOp.setBatch b fid) s) =
        some (jsOrStr b.batchId fid) ∧
      viewBatchId exprs (stepServer exprs (ServerOp.setBatch b fid) s) ≠
        viewBatchId exprs s) := by
  refine ⟨fun s => rfl, ?_, ?_⟩
  · intro op s i j hi hj hne
    cases op with
    | readCurrent =>
      rw [stepServer] at hj
      rw [hi] at hj
      exact absurd (Option.some.injEq .. ▸ hj) (by simpa using hne)
    | httpSetExpr q =>
      exfalso
      rcases hh : httpSetExpression exprs q s with err | ⟨resp, s'⟩ <;>
        rw [stepServer, hh] at hj
      · rw [hi] at hj
        exact hne (Option.some.inj hj)
      · have hbatch := (httpSetExpression_ok hh).2.2.1
        have h1 := viewBatchId_eq_stored exprs s hi
        have h2 := viewBatchId_eq_stored exprs s' hj
        rw [hbatch, h1] at h2
        exact hne (Option.some.inj h2)
    | mcpSetExpr name st =>
      exfalso
      by_cases hvalid : (lookupExpr exprs name).isSome
      · have hb : (stepServer exprs (ServerOp.mcpSetExpr name st) s).batchExpressionsState = none := by
          simp [stepServer, handleExpressionUpdate, hvalid]
        rw [viewBatchId_of_no_batch _ _ hb] at hj
        cases hj
      · have hs' : stepServer exprs (ServerOp.mcpSetExpr name st) s = s := by
          simp [stepServer, handleExpressionUpdate, hvalid]
        rw [hs', hi] at hj
        exact hne (Option.some.inj hj)
    | legacySet name d px py r sc =>
      exfalso
      rcases hh : legacySetAvatarExpression exprs name d px py r sc s with err | s' <;>
        rw [stepServer, hh] at hj
      · rw [hi] at hj
        exact hne (Option.some.inj hj)
      · have hb := (legacySetAvatarExpression_ok hh).2.2
        rw [viewBatchId_of_no_batch _ _ hb] at hj
        cases hj
    | setBatch b fid => exact ⟨b, fid, rfl⟩
  · intro b fid s a rest hv hnc hfresh
    have himp : rest = [] → b.loop = true := by
      intro h
      rcases hnc with h1 | h1
      · exact absurd h h1
      · exact h1
    have hstep : stepServer exprs (ServerOp.setBatch b fid) s =
        { currentExpression := a.expression
          avatarState := actionState a
          batchExpressionsState := some
            { loop := b.loop
              random := some (b.random.getD false)
              actions := a :: rest
              batchId := some (jsOrStr b.batchId fid) } } := by
      rw [stepServer]
      simp [handleBatchExpressionsUpdate, hv]
      exact himp
    have hmem : (lookupExpr exprs a.expression).isSome := by
      have ha : a ∈ validFilter exprs b := by
        rw [hv]
        exact List.mem_cons_self a rest
      rw [validFilter] at ha
      exact (List.mem_filter.mp ha).2
    rcases he : lookupExpr exprs a.expression with _ | e
    · rw [he] at hmem
      cases hmem
    · have hview : viewBatchId exprs (stepServer exprs (ServerOp.setBatch b fid) s) =
          some (jsOrStr b.batchId fid) := by
        rw [hstep]
        rw [viewBatchId_of_stored exprs _ (by simpa using he)]
        rfl
      exact ⟨hview, by rw [hview]; exact fun hEq => hfresh hEq.symm⟩

/-- Witness for C6: installing the sample looping batch over the pristine
state makes `batch-1` visible, a change from the previous (batchless) view. -/
theorem c6_batch_id_stable_under_reads_witness :
    viewBatchId sampleExprs
      (stepServer sampleExprs (ServerOp.setBatch sampleBatchLoop "fresh-1")
        initialServerState) = some (jsOrStr (some "batch-1") "fresh-1") ∧
    viewBatchId sampleExprs
      (stepServer sampleExprs (ServerOp.setBatch sampleBatchLoop "fresh-1")
        initialServerState) ≠ viewBatchId sampleExprs initialServerState :=
  (c6_batch_id_stable_under_reads sampleExprs).2.2 sampleBatchLoop "fresh-1"
    initialServerState sampleActionJ [sampleActionS] rfl (Or.inr rfl) (by decide)

/-- C8: when a poll returns a batch carrying the `batchId` the player is
already tracking, `updateAvatar` is a strict no-op: the client state is
unchanged and no render, no timer arm and no timer cancel is performed. -/
theorem c8_same_batch_poll_is_noop
    (r : CurrentResponse) (c : ClientState) (b : BatchExpressions) (i : String)
    (hb : r.batchExpressions = some b) (hid : b.batchId = some i)
    (htrack : c.currentBatchId = some i) :
    updateAvatar r c = (c, []) := by
  rw [updateAvatar, hb]
  simp only []
  rw [if_neg (by simp [hid, htrack])]

/-- The view served while `sampleBatchLoop` is installed. -/
def loopBatchView : CurrentResponse :=
  { name := "joyful"
    imageUrl := "/images/joyful.png"
    description := "Happy and celebratory expression"
    useCases := "When tests pass"
    direction := .right, posX := .num 0, posY := .num 0
    rotation := .num 0, scale := .num 1
    batchExpressions := some
      { loop := true, random := some false
        actions := [sampleActionJ, sampleActionS], batchId := some "batch-1" } }

/-- The client once it has started tracking `batch-1` on frame 0. -/
def clientTracking : ClientState :=
  { currentBatch := some
      { loop := true, random := some false
        actions := [sampleActionJ, sampleActionS], batchId := some "batch-1" }
    currentBatchId := some "batch-1"
    currentActionIndex := 0
    batchTimeout := true
    rand := [] }

/-- Witness for C8: a re-poll of the running `batch-1` changes nothing and
emits no effect. -/
theorem c8_same_batch_poll_is_noop_witness :
    updateAvatar loopBatchView clientTracking = (clientTracking, []) :=
  c8_same_batch_poll_is_noop loopBatchView clientTracking
    { loop := true, random := some false
      actions := [sampleActionJ, sampleActionS], batchId := some "batch-1" }
    "batch-1" rfl rfl rfl

/-- Server state with the non-looping two-frame batch installed. -/
def c2Server : ServerState :=
  handleBatchExpressionsUpdate sampleExprs "fresh-1" sampleBatchNoLoop initialServerState

/-- The view served while that batch is stored (the server never advances or
clears it by itself). -/
def c2View : CurrentResponse :=
  { name := "joyful"
    imageUrl := "/images/joyful.png"
    description := "Happy and celebratory expression"
    useCases := "When tests pass"
    direction := .right, posX := .num 0, posY := .num 0
    rotation := .num 0, scale := .num 1
    batchExpressions := some
      { loop := false, random := some false
        actions := [sampleActionJ, sampleActionS], batchId := some "batch-1" } }

/-- Poll 1: the client starts the batch. -/
def c2AfterPoll1 : ClientState × List ClientEffect := updateAvatar c2View clientInit

/-- First timer expiry: advance to the second frame. -/
def c2AfterFire1 : ClientState × List ClientEffect := timerFire c2AfterPoll1.1

/-- Second timer expiry: the non-looping batch completes. -/
def c2AfterFire2 : ClientState × List ClientEffect := timerFire c2AfterFire1.1

/-- Poll 2, with the server state unchanged: same stored batch, same id. -/
def c2AfterPoll2 : ClientState × List ClientEffect := updateAvatar c2View c2AfterFire2.1

/-- C2: the claim says a finished non-looping batch stays on its last frame
and later polls of the same still-stored batch do not restart playback.  The
completion handler, however, also clears `currentBatchId`
(index.html:226-229), so the very next poll sees a "new" batch and restarts
from frame 0.  The run below shows: the completing expiry itself stops
(no render, no re-arm), but the following poll of the identical view renders
frame 0 again and re-arms the timer. -/
theorem c2_finished_batch_restarts_on_next_poll :
    currentView sampleExprs c2Server = some c2View ∧
    c2AfterFire2.2 = [] ∧
    c2AfterFire2.1.currentBatch = none ∧
    c2AfterFire2.1.currentBatchId = none ∧
    c2AfterPoll2.2 = [ClientEffect.cancelTimer,
                      ClientEffect.render (batchActionData sampleActionJ),
                      ClientEffect.armTimer 100] ∧
    c2AfterPoll2.1.currentBatchId = some "batch-1" ∧
    c2AfterPoll2.1.currentActionIndex = 0 := by
  refine ⟨?_, ?_, ?_, ?_, ?_, ?_, ?_⟩ <;> rfl

/-- `renderedNames` distributes over effect concatenation. -/
theorem renderedNames_append (xs ys : List ClientEffect) :
    renderedNames (xs ++ ys) = renderedNames xs ++ renderedNames ys := by
  simp [renderedNames]

/-- Mid-cycle run of the player: starting from frame `j` of a tracked batch
with `k` frames left after it, `k` timer expiries render exactly the
remaining frames, in order. -/
theorem runTimerFires_tail (b : BatchExpressions) :
    ∀ (k : ℕ) (c : ClientState) (j : ℕ),
      c.currentBatch = some b → c.currentActionIndex = j →
      j + k + 1 = b.actions.length →
      renderedNames (runTimerFires k c).2 =
        (b.actions.drop (j + 1)).map (fun a => a.expression) := by
  intro k
  induction k with
  | zero =>
    intro c j _ _ hlen
    have hdrop : b.actions.drop (j + 1) = [] := List.drop_eq_nil_of_le (by omega)
    rw [runTimerFires, hdrop]
    simp [renderedNames]
  | succ k ih =>
    intro c j hb hidx hlen
    have hjlt : j + 1 < b.actions.length := by omega
    have hfire : timerFire c =
        ({ c with currentActionIndex := j + 1, batchTimeout := true },
         [ClientEffect.render (batchActionData (b.actions.get ⟨j + 1, hjlt⟩)),
          ClientEffect.armTimer (b.actions.get ⟨j + 1, hjlt⟩).duration]) := by
      rw [timerFire, hb]
      simp only []
      rw [hidx, if_neg (by omega)]
      rw [processBatchAction]
      simp only []
      have hEmp : b.actions.isEmpty = false := by
        rcases hact : b.actions with _ | _
        · rw [hact] at hjlt; simp at hjlt
        · rfl
      rw [hEmp]
      simp only [Bool.false_eq_true, if_false]
      rw [List.get?_eq_getElem?, List.getElem?_eq_getElem hjlt]
      rfl
    rw [runTimerFires]
    simp only [hfire, renderedNames_append]
    have hrec := ih { c with currentActionIndex := j + 1, batchTimeout := true }
      (j + 1) hb rfl (by omega)
    rw [hrec, List.drop_eq_getElem_cons hjlt]
    rfl

/-- C9: for a looping batch with `random = true`, one full cycle after a wrap
displays exactly the batch's action names as a multiset: the per-wrap
reshuffle (`sort` under a random comparator) is a rearrangement, so no action
is duplicated or lost, although the order may differ. -/
theorem c9_random_loop_cycle_is_permutation
    (b : BatchExpressions) (c : ClientState) (bs : List Bool)
    (hb : c.currentBatch = some b) (hloop : b.loop = true)
    (hrand : b.random = some true) (hrnd : c.rand = bs)
    (hidx : c.currentActionIndex + 1 = b.actions.length)
    (hne : b.actions ≠ []) :
    (↑(renderedNames (runTimerFires b.actions.length c).2) : Multiset String) =
      ↑(b.actions.map (fun a => a.expression)) := by
  obtain ⟨m, hm⟩ : ∃ m, b.actions.length = m + 1 :=
    ⟨b.actions.length - 1, by have := List.length_pos.mpr hne; omega⟩
  have hperm : (sortRand bs b.actions).1.Perm b.actions := sortRand_perm bs b.actions
  have hlenA : (sortRand bs b.actions).1.length = b.actions.length := hperm.length_eq
  rcases hA : (sortRand bs b.actions).1 with _ | ⟨a0, tl⟩
  · exfalso
    rw [hA, hm] at hlenA
    simp at hlenA
  · rw [hA] at hperm hlenA
    have hfire1 : timerFire c =
        ({ c with currentBatch := some { b with actions := a0 :: tl }
                  currentActionIndex := 0
                  batchTimeout := true
                  rand := (sortRand bs b.actions).2 },
         [ClientEffect.render (batchActionData a0),
          ClientEffect.armTimer a0.duration]) := by
      rw [timerFire, hb]
      simp only []
      rw [if_pos (by omega)]
      rw [hloop]
      simp only [if_true]
      rw [hrand]
      simp only [Option.getD_some, if_true]
      rw [hrnd, processBatchAction]
      simp only [hA]
      rfl
    rw [hm, runTimerFires]
    simp only [hfire1, renderedNames_append]
    have hrec := runTimerFires_tail { b with actions := a0 :: tl } m
      { c with currentBatch := some { b with actions := a0 :: tl }
               currentActionIndex := 0
               batchTimeout := true
               rand := (sortRand bs b.actions).2 } 0 rfl rfl
      (by simp only []; omega)
    rw [hrec]
    rw [Multiset.coe_eq_coe]
    have hlist : renderedNames
        [ClientEffect.render (batchActionData a0), ClientEffect.armTimer a0.duration] ++
        (({ b with actions := a0 :: tl } : BatchExpressions).actions.drop (0 + 1)).map
          (fun a => a.expression) =
        (a0 :: tl).map (fun a => a.expression) := rfl
    rw [hlist]
    exact hperm.map (fun a => a.expression)

/-- A looping, randomizing two-frame batch. -/
def c9Batch : BatchExpressions :=
  { loop := true, random := some true
    actions := [sampleActionJ, sampleActionS], batchId := some "batch-9" }

/-- The client tracking `c9Batch` on its last frame, about to wrap. -/
def c9Client : ClientState :=
  { currentBatch := some c9Batch, currentBatchId := some "batch-9"
    currentActionIndex := 1, batchTimeout := true, rand := [true] }

/-- Witness for C9 at the concrete two-frame batch and one concrete stream
of comparator outcomes. -/
theorem c9_random_loop_cycle_is_permutation_witness :
    (↑(renderedNames (runTimerFires c9Batch.actions.length c9Client).2) :
        Multiset String) =
      ↑(c9Batch.actions.map (fun a => a.expression)) :=
  c9_random_loop_cycle_is_permutation c9Batch c9Client [true] rfl rfl rfl rfl rfl
    (List.cons_ne_nil sampleActionJ [sampleActionS])
